import Mathlib

/-!
# Verification of the fastapi-template backend

A shallow embedding, in Lean 4, of the business logic of the
`fastapi-template` CRUD backend (user registration/login with JWT bearer
auth, per-user item resources), together with proofs and refutations of the
specification claims about it.

Conventions used throughout:

* Pure Python functions become Lean functions; stateful database access
  becomes explicit passing of a `Database` value.
* Fallible Python code (raised exceptions) returns `Except`.
* Library behaviour the code relies on (passlib/bcrypt, python-jose,
  pydantic v2 construction semantics) is embedded by small executable
  models whose doc comments state exactly which library behaviour they
  capture.
* The SQLAlchemy models module (`app/models`) is not part of the sources;
  the row types below are modelled from the spec's data-model section and
  are marked `Modelled from the spec:` where that matters.
-/

/-! ## Password hasher (app/core/security.py, passlib CryptContext) -/

/-- A digest string as classified by passlib's
`CryptContext(schemes=["bcrypt"])`.  `bcrypt salt payload` stands for a
well-formed modular-crypt bcrypt digest `$2b$12$<salt><payload>` whose
payload is the bcrypt key derivation of some plaintext under that salt;
`malformed raw` stands for any string that the context cannot identify as a
hash of a known scheme. -/
inductive Digest where
  | bcrypt (salt : String) (payload : String)
  | malformed (raw : String)
deriving DecidableEq, Repr

/-- passlib raises `UnknownHashError` (a `ValueError` subclass) when asked to
verify against a digest it cannot identify. -/
inductive PasslibError where
  | unknownHash
deriving DecidableEq, Repr

/-- Model of the bcrypt key derivation: the payload stored in a digest is a
function of the plaintext and the salt, injective in the plaintext for a
fixed salt (one-wayness is irrelevant to the claims and is not modelled). -/
def bcryptKDF (password salt : String) : String :=
  salt ++ "$" ++ password

/-- `app/core/security.py get_password_hash`: `pwd_context.hash(password)`.
The library draws a fresh random salt on each call; the salt is made an
explicit argument here. -/
def get_password_hash (password : String) (salt : String) : Digest :=
  .bcrypt salt (bcryptKDF password salt)

/-- passlib `CryptContext.verify`: identify the digest's scheme, recompute
the payload from the candidate plaintext and the digest's salt and compare;
raise `UnknownHashError` if the digest cannot be identified. -/
def pwd_context_verify (plain : String) (digest : Digest) : Except PasslibError Bool :=
  match digest with
  | .bcrypt salt payload => .ok (payload == bcryptKDF plain salt)
  | .malformed _ => .error .unknownHash

/-- `app/core/security.py verify_password`: returns
`pwd_context.verify(plain_password, hashed_password)` directly, with no
exception handling, so `UnknownHashError` propagates to the caller. -/
def verify_password (plain_password : String) (hashed_password : Digest) :
    Except PasslibError Bool :=
  pwd_context_verify plain_password hashed_password

/-! ## Decimal string round-trip

`create_access_token` stores `str(subject)` in the token and
`decode_access_token` applies `int(...)` to the `sub` claim.  We model
`str` on integers by Lean's `toString` (which prints the same decimal form
Python does) and `int` by `python_int` below, and prove the round trip. -/

/-- Parse a run of decimal digits, accumulating the value; fails on the
first non-digit character. -/
def parseDigits : List Char → Nat → Option Nat
  | [], acc => some acc
  | c :: cs, acc =>
    if c.isDigit then parseDigits cs (acc * 10 + (c.toNat - '0'.toNat)) else none

/-- Character-list form of `python_int`. -/
def pythonIntOfChars : List Char → Option Int
  | [] => none
  | c :: cs =>
    if c = '-' then
      if cs.isEmpty then none
      else (parseDigits cs 0).map (fun v => -(v : Int))
    else
      (parseDigits (c :: cs) 0).map (fun v => (v : Int))

/-- Model of Python `int(...)` applied to a token subject string: an
optional minus sign followed by one or more decimal digits yields the
value, anything else raises `ValueError` (here: `none`).  The additional
forms `int` accepts (surrounding whitespace, a leading `+`, `_` digit
separators) are not modelled; no string produced by `str` on an `int` uses
them. -/
def python_int (s : String) : Option Int :=
  pythonIntOfChars s.data

theorem toDigitsCore_shift (b : Nat) :
    ∀ (f n : Nat) (ds : List Char),
      Nat.toDigitsCore b f n ds = Nat.toDigitsCore b f n [] ++ ds := by
  intro f
  induction f with
  | zero => intro n ds; simp [Nat.toDigitsCore]
  | succ f ih =>
    intro n ds
    simp only [Nat.toDigitsCore]
    by_cases h : n / b = 0
    · simp [h]
    · simp only [h, if_neg h, if_false]
      rw [ih (n / b) (Nat.digitChar (n % b) :: ds),
        ih (n / b) [Nat.digitChar (n % b)], List.append_assoc]
      rfl

theorem digitChar_isDigit : ∀ m : Nat, m < 10 → (Nat.digitChar m).isDigit = true := by
  decide

theorem digitChar_val : ∀ m : Nat, m < 10 → (Nat.digitChar m).toNat - 48 = m := by
  decide

theorem parseDigits_snoc (l : List Char) (c : Char) :
    ∀ acc : Nat, parseDigits (l ++ [c]) acc =
      match parseDigits l acc with
      | some v => if c.isDigit then some (v * 10 + (c.toNat - '0'.toNat)) else none
      | none => none := by
  induction l with
  | nil => intro acc; by_cases h : c.isDigit <;> simp [parseDigits, h]
  | cons d l ih =>
    intro acc
    by_cases hd : d.isDigit <;> simp [parseDigits, hd, ih]

theorem parseDigits_toDigitsCore :
    ∀ (f n : Nat), n < f →
      parseDigits (Nat.toDigitsCore 10 f n []) 0 = some n := by
  intro f
  induction f with
  | zero => intro n h; omega
  | succ f ih =>
    intro n h
    simp only [Nat.toDigitsCore]
    by_cases h0 : n / 10 = 0
    · have hn : n < 10 := by omega
      have hmod : n % 10 = n := Nat.mod_eq_of_lt hn
      simp only [h0, if_pos, parseDigits, hmod, digitChar_isDigit n hn, if_true]
      have h48 : '0'.toNat = 48 := rfl
      rw [h48, digitChar_val n hn]
      simp
    · have hbig : 10 ≤ n := by
        by_contra hlt
        exact h0 (Nat.div_eq_of_lt (by omega))
      have hrec : n / 10 < f := by
        have := Nat.div_lt_self (by omega : 0 < n) (by omega : 1 < 10)
        omega
      rw [if_neg h0, toDigitsCore_shift, parseDigits_snoc, ih (n / 10) hrec]
      have hm : n % 10 < 10 := Nat.mod_lt n (by omega)
      simp only [digitChar_isDigit (n % 10) hm, if_true]
      have h48 : '0'.toNat = 48 := rfl
      rw [h48, digitChar_val (n % 10) hm]
      congr 1
      omega

theorem toDigitsCore_ne_nil (b : Nat) :
    ∀ (f n : Nat) (ds : List Char), 0 < f → Nat.toDigitsCore b f n ds ≠ [] := by
  intro f n ds hf
  match f, hf with
  | f + 1, _ =>
    simp only [Nat.toDigitsCore]
    by_cases h : n / b = 0
    · simp [h]
    · rw [if_neg h, toDigitsCore_shift]
      simp

theorem repr_data (n : Nat) : (Nat.repr n).data = Nat.toDigits 10 n := rfl

theorem string_data_append (s t : String) : (s ++ t).data = s.data ++ t.data := rfl

theorem parseDigits_repr (n : Nat) : parseDigits (Nat.repr n).data 0 = some n := by
  rw [repr_data]
  exact parseDigits_toDigitsCore (n + 1) n (Nat.lt_succ_self n)

theorem repr_data_ne_nil (n : Nat) : (Nat.repr n).data ≠ [] := by
  rw [repr_data]
  exact toDigitsCore_ne_nil 10 (n + 1) n [] (Nat.succ_pos n)

theorem repr_head_isDigit (n : Nat) :
    ∀ c ∈ (Nat.repr n).data, c.isDigit = true := by
  rw [repr_data]
  have key : ∀ (f m : Nat) (ds : List Char),
      (∀ c ∈ ds, c.isDigit = true) →
      ∀ c ∈ Nat.toDigitsCore 10 f m ds, c.isDigit = true := by
    intro f
    induction f with
    | zero => intro m ds h; simpa [Nat.toDigitsCore] using h
    | succ f ih =>
      intro m ds h
      simp only [Nat.toDigitsCore]
      by_cases h0 : m / 10 = 0
      · simp only [h0, if_pos]
        intro c hc
        rcases List.mem_cons.mp hc with rfl | hc
        · exact digitChar_isDigit (m % 10) (Nat.mod_lt m (by omega))
        · exact h c hc
      · rw [if_neg h0]
        refine ih (m / 10) _ ?_
        intro c hc
        rcases List.mem_cons.mp hc with rfl | hc
        · exact digitChar_isDigit (m % 10) (Nat.mod_lt m (by omega))
        · exact h c hc
  exact key (n + 1) n [] (by simp)

/-- Round trip: Python's `int(str(i))` recovers any integer `i`. -/
theorem python_int_toString (i : Int) : python_int (toString i) = some i := by
  have htc : toString i = Int.repr i := rfl
  rw [htc]
  cases i with
  | ofNat m =>
    show python_int (Nat.repr m) = some (Int.ofNat m)
    unfold python_int
    rcases hd : (Nat.repr m).data with _ | ⟨c, cs⟩
    · exact absurd hd (repr_data_ne_nil m)
    · have hcdig : c.isDigit = true := by
        have := repr_head_isDigit m
        rw [hd] at this
        exact this c (List.mem_cons_self c cs)
      have hcne : ¬ c = '-' := by
        intro hrfl
        rw [hrfl] at hcdig
        simp [Char.isDigit] at hcdig
      have hparse := parseDigits_repr m
      rw [hd] at hparse
      simp [pythonIntOfChars, hcne, hparse]
  | negSucc m =>
    show python_int ("-" ++ Nat.repr (m + 1)) = some (Int.negSucc m)
    unfold python_int
    rw [string_data_append]
    have hdata : ("-" : String).data = ['-'] := rfl
    rw [hdata]
    have hne : (Nat.repr (m + 1)).data ≠ [] := repr_data_ne_nil (m + 1)
    have hemp : (Nat.repr (m + 1)).data.isEmpty = false := by
      rcases h : (Nat.repr (m + 1)).data with _ | ⟨c, cs⟩
      · exact absurd h hne
      · rfl
    simp only [List.cons_append, List.nil_append, pythonIntOfChars, if_pos rfl, hemp,
      Bool.false_eq_true, if_false, parseDigits_repr (m + 1)]
    simp [Int.negSucc_eq]

/-! ## Token service (app/core/security.py, python-jose) -/

/-- Process-wide configuration (app/core/config.py `Settings`).
`SECRET_KEY` is read from the environment and has no default; its concrete
value is irrelevant to every theorem below, which only compare keys for
equality. -/
structure Settings where
  SECRET_KEY : String
  ALGORITHM : String
  ACCESS_TOKEN_EXPIRE_MINUTES : Int
deriving DecidableEq, Repr

def settings : Settings :=
  { SECRET_KEY := "environment-provided-secret"
    ALGORITHM := "HS256"
    ACCESS_TOKEN_EXPIRE_MINUTES := 30 }

/-- The claim set `{"exp": ..., "sub": ...}` carried by a JWT.  `get` on a
missing key returns `None`, hence the `Option` fields. -/
structure JWTClaims where
  sub : Option String
  exp : Option Int
deriving DecidableEq, Repr

/-- A JWT on the wire.  `signed claims key` is a structurally well-formed
token whose HMAC was computed with `key` (signature verification under
`k` succeeds iff `k = key`); `garbage raw` is any string that does not
parse as a JWT at all. -/
inductive JWTString where
  | signed (claims : JWTClaims) (key : String)
  | garbage (raw : String)
deriving DecidableEq, Repr

/-- `jose.JWTError` cases relevant here: signature mismatch, expired `exp`
claim, or an unparseable token. -/
inductive JoseError where
  | invalidSignature
  | expiredSignature
  | malformedToken
deriving DecidableEq, Repr

/-- `jose.jwt.encode(to_encode, key, algorithm)`. -/
def jwt_encode (claims : JWTClaims) (key : String) : JWTString :=
  .signed claims key

/-- `jose.jwt.decode(token, key, algorithms)`: parse, verify the signature
under `key`, and reject an `exp` claim strictly in the past (jose raises
`ExpiredSignatureError` when `exp < now`, with zero default leeway). -/
def jwt_decode (token : JWTString) (key : String) (now : Int) :
    Except JoseError JWTClaims :=
  match token with
  | .garbage _ => .error .malformedToken
  | .signed claims k =>
    if k = key then
      match claims.exp with
      | some exp => if exp < now then .error .expiredSignature else .ok claims
      | none => .ok claims
    else .error .invalidSignature

/-- `app/core/security.py create_access_token`.  Times are integer Unix
seconds; `expires_delta` is the optional `timedelta` argument in seconds
and `now` stands for `datetime.utcnow()`.  Python's truthiness test
`if expires_delta:` sends both `None` and `timedelta(0)` to the default
branch of `ACCESS_TOKEN_EXPIRE_MINUTES` minutes. -/
def create_access_token (subject : Int) (expires_delta : Option Int) (now : Int) :
    JWTString :=
  let expire : Int :=
    match expires_delta with
    | some d =>
      if d = 0 then now + 60 * settings.ACCESS_TOKEN_EXPIRE_MINUTES else now + d
    | none => now + 60 * settings.ACCESS_TOKEN_EXPIRE_MINUTES
  jwt_encode { exp := some expire, sub := some (toString subject) } settings.SECRET_KEY

/-- `app/core/security.py decode_access_token`: decode and verify the
token, read the `sub` claim (`None` when absent), convert it with
`int(...)`; any `JWTError` or `ValueError` is caught and mapped to `None`. -/
def decode_access_token (token : JWTString) (now : Int) : Option Int :=
  match jwt_decode token settings.SECRET_KEY now with
  | .error _ => none
  | .ok payload =>
    match payload.sub with
    | none => none
    | some user_id => python_int user_id

/-! ## Pydantic schemas (src/app/schemas/__init__.py)

Pydantic v2 semantics embedded here:

* constructing a model from keyword arguments validates required fields and
  the declared `Field` constraints, raising `ValidationError` (a `ValueError`
  subclass) on failure;
* keyword arguments that are not declared fields are silently dropped (the
  default `extra` behaviour, since `BaseSchema` only sets
  `from_attributes=True`);
* `model_dump(exclude_unset=True)` returns exactly the fields that were
  explicitly passed at construction, including fields explicitly set to
  `None`.

A "dict" below is a record with one `Patch` slot per key that can occur in
the dictionaries the services build, so that present and absent keys are
distinguished. -/

/-- Presence marker for a dictionary key / a pydantic field of a partial
model: either absent or explicitly set to a value. -/
inductive Patch (α : Type) where
  | unset
  | assigned (v : α)
deriving DecidableEq, Repr

/-- Python `dict.get(key, default)` on a `Patch` slot. -/
def Patch.getD {α : Type} (p : Patch α) (d : α) : α :=
  match p with
  | .unset => d
  | .assigned v => v

/-- The first error pydantic reports when validating keyword arguments. -/
inductive PydanticError where
  | missingField (field : String)
  | invalidValue (field : String)
deriving DecidableEq, Repr

/-- Python exceptions surfaced by the embedded code.  `validation` wraps a
pydantic `ValidationError`; because `ValidationError` subclasses
`ValueError`, both `valueError` and `validation` are caught by
`except ValueError`. -/
inductive PyError where
  | valueError (msg : String)
  | validation (err : PydanticError)
  | integrityError (msg : String)
  | typeError (msg : String)
deriving DecidableEq, Repr

/-- Which exceptions an `except ValueError` clause catches. -/
def PyError.isValueError : PyError → Bool
  | .valueError _ => true
  | .validation _ => true
  | .integrityError _ => false
  | .typeError _ => false

/-- `str(e)` on the exceptions the register endpoint can surface.  The
precise multi-line text pydantic renders for a `ValidationError` is
abbreviated; only the `ValueError` messages matter to the claims. -/
def PyError.str : PyError → String
  | .valueError msg => msg
  | .validation (.missingField f) => "1 validation error: " ++ f ++ ": Field required"
  | .validation (.invalidValue f) => "1 validation error: " ++ f ++ ": Invalid value"
  | .integrityError msg => msg
  | .typeError msg => msg

/-- Schema `UserCreate`: email, username, optional full_name, password. -/
structure UserCreate where
  email : String
  username : String
  full_name : Option String
  password : String
deriving DecidableEq, Repr

/-- Keyword-argument dictionary for `UserCreate(**user_dict)` as built by
`UserService.create_user`: the keys of `UserCreate.model_dump()` plus the
`hashed_password` key the service inserts. -/
structure UserCreateDict where
  email : Patch String
  username : Patch String
  full_name : Patch (Option String)
  password : Patch String
  hashed_password : Patch Digest
deriving DecidableEq, Repr

/-- `user_in.model_dump()`: every declared field, present. -/
def UserCreate.model_dump (u : UserCreate) : UserCreateDict :=
  { email := .assigned u.email
    username := .assigned u.username
    full_name := .assigned u.full_name
    password := .assigned u.password
    hashed_password := .unset }

/-- `UserCreate(**d)` under pydantic v2: `email`, `username` and `password`
are required, `full_name` defaults to `None`, the undeclared
`hashed_password` key is ignored, and the declared `Field` length bounds
are enforced (the `EmailStr` format check is not modelled; no claim
depends on it). -/
def UserCreate.fromDict (d : UserCreateDict) : Except PydanticError UserCreate :=
  match d.email with
  | .unset => .error (.missingField "email")
  | .assigned email =>
    match d.username with
    | .unset => .error (.missingField "username")
    | .assigned username =>
      if 3 ≤ username.length ∧ username.length ≤ 100 then
        match d.password with
        | .unset => .error (.missingField "password")
        | .assigned password =>
          if 8 ≤ password.length ∧ password.length ≤ 100 then
            match d.full_name.getD none with
            | some fn =>
              if fn.length ≤ 255 then
                .ok { email, username, full_name := some fn, password }
              else .error (.invalidValue "full_name")
            | none => .ok { email, username, full_name := none, password }
          else .error (.invalidValue "password")
      else .error (.invalidValue "username")

/-- Schema `UserUpdate`: all fields optional.  Fields whose database column
is NOT NULL (`email`, `username`, `password`, `is_active`) carry their
column type in the patch; an explicit JSON `null` for those fields, which
pydantic would admit but which can only fault at the database layer, is
outside the model.  `full_name` is a nullable column, so its patch value is
an `Option`. -/
structure UserUpdate where
  email : Patch String
  username : Patch String
  full_name : Patch (Option String)
  password : Patch String
  is_active : Patch Bool
deriving DecidableEq, Repr

/-- Keyword-argument dictionary for `UserUpdate(**user_dict)` as built by
`UserService.update_user`. -/
structure UserUpdateDict where
  email : Patch String
  username : Patch String
  full_name : Patch (Option String)
  password : Patch String
  is_active : Patch Bool
  hashed_password : Patch Digest
deriving DecidableEq, Repr

/-- `user_in.model_dump(exclude_unset=True)`: exactly the explicitly-set
fields, as a dictionary. -/
def UserUpdate.model_dump_exclude_unset (u : UserUpdate) : UserUpdateDict :=
  { email := u.email
    username := u.username
    full_name := u.full_name
    password := u.password
    is_active := u.is_active
    hashed_password := .unset }

/-- `UserUpdate(**d)` under pydantic v2: every declared field is optional,
set values must satisfy the `Field` bounds, and the undeclared
`hashed_password` key is ignored — dropped without error or trace. -/
def UserUpdate.fromDict (d : UserUpdateDict) : Except PydanticError UserUpdate :=
  match d.username with
  | .assigned username =>
    if 3 ≤ username.length ∧ username.length ≤ 100 then
      match d.password with
      | .assigned password =>
        if 8 ≤ password.length ∧ password.length ≤ 100 then
          .ok { email := d.email, username := .assigned username,
                full_name := d.full_name, password := .assigned password,
                is_active := d.is_active }
        else .error (.invalidValue "password")
      | .unset =>
        .ok { email := d.email, username := .assigned username,
              full_name := d.full_name, password := .unset,
              is_active := d.is_active }
    else .error (.invalidValue "username")
  | .unset =>
    match d.password with
    | .assigned password =>
      if 8 ≤ password.length ∧ password.length ≤ 100 then
        .ok { email := d.email, username := .unset,
              full_name := d.full_name, password := .assigned password,
              is_active := d.is_active }
      else .error (.invalidValue "password")
    | .unset =>
      .ok { email := d.email, username := .unset,
            full_name := d.full_name, password := .unset,
            is_active := d.is_active }

/-- Schema `ItemCreate`: title and optional description. -/
structure ItemCreate where
  title : String
  description : Option String
deriving DecidableEq, Repr

/-- Keyword-argument dictionary for `ItemCreate(**item_dict)` as built by
`ItemService.create_item`: the keys of `ItemCreate.model_dump()` plus the
`owner_id` key the service inserts. -/
structure ItemCreateDict where
  title : Patch String
  description : Patch (Option String)
  owner_id : Patch Nat
deriving DecidableEq, Repr

/-- `item_in.model_dump()`: every declared field, present. -/
def ItemCreate.model_dump (i : ItemCreate) : ItemCreateDict :=
  { title := .assigned i.title
    description := .assigned i.description
    owner_id := .unset }

/-- `ItemCreate(**d)` under pydantic v2: `title` is required with its length
bounds, `description` defaults to `None`, and the undeclared `owner_id` key
is ignored — dropped without error or trace. -/
def ItemCreate.fromDict (d : ItemCreateDict) : Except PydanticError ItemCreate :=
  match d.title with
  | .unset => .error (.missingField "title")
  | .assigned title =>
    if 1 ≤ title.length ∧ title.length ≤ 255 then
      .ok { title, description := d.description.getD none }
    else .error (.invalidValue "title")

/-- Schema `ItemUpdate`: all fields optional; as in `UserUpdate`, patches
for NOT NULL columns (`title`, `is_active`) carry the column type. -/
structure ItemUpdate where
  title : Patch String
  description : Patch (Option String)
  is_active : Patch Bool
deriving DecidableEq, Repr

/-! ## Database rows and stores

Modelled from the spec: the SQLAlchemy models module `app/models` is not
under `src/`; only its callers and the tests are.  Spec section 3 gives the
columns: User has id, email (unique), username (unique), optional
full_name, password hash, is_active, is_superuser; Item has id, title,
optional description, a required owner_id foreign key, and is_active.  The
`created_at`/`updated_at` audit columns are set by column defaults and
never read by any logic under verification, and are omitted. -/

/-- A persisted `users` row. -/
structure UserRow where
  id : Nat
  email : String
  username : String
  full_name : Option String
  hashed_password : Digest
  is_active : Bool
  is_superuser : Bool
deriving DecidableEq, Repr

/-- A persisted `items` row; `owner_id` is NOT NULL. -/
structure ItemRow where
  id : Nat
  title : String
  description : Option String
  owner_id : Nat
  is_active : Bool
deriving DecidableEq, Repr

/-- An `Item` ORM instance between construction and flush: attributes not
passed to the constructor are `None`, and NOT NULL constraints are only
checked when the INSERT is flushed. -/
structure ItemRowPending where
  title : String
  description : Option String
  owner_id : Option Nat
deriving DecidableEq, Repr

/-- The relational store and its identity counters. -/
structure Database where
  users : List UserRow
  items : List ItemRow
  next_user_id : Nat
  next_item_id : Nat
deriving DecidableEq, Repr

/-- Public response schema `User` (`UserInDB` without the audit columns);
note it has no password or hashed_password field of any kind. -/
structure User where
  email : String
  username : String
  full_name : Option String
  id : Nat
  is_active : Bool
  is_superuser : Bool
deriving DecidableEq, Repr

/-- `User.model_validate(row)` (`from_attributes=True`): project the row
onto the public fields. -/
def User.model_validate (row : UserRow) : User :=
  { email := row.email
    username := row.username
    full_name := row.full_name
    id := row.id
    is_active := row.is_active
    is_superuser := row.is_superuser }

/-- Public response schema `Item` (`ItemInDB` without the audit columns). -/
structure Item where
  title : String
  description : Option String
  id : Nat
  owner_id : Nat
  is_active : Bool
deriving DecidableEq, Repr

/-- `Item.model_validate(row)`. -/
def Item.model_validate (row : ItemRow) : Item :=
  { title := row.title
    description := row.description
    id := row.id
    owner_id := row.owner_id
    is_active := row.is_active }

/-- Schema `MessageResponse`. -/
structure MessageResponse where
  message : String
deriving DecidableEq, Repr

/-! ## Repositories (src/app/repositories)

`BaseRepository` instantiated at `User` and `Item`.  `select(...).where`
with a `first()` is a first-match scan; `delete` removes the fetched row. -/

/-- `BaseRepository.get` at `User`. -/
def user_repository_get (db : Database) (id : Nat) : Option UserRow :=
  db.users.find? (fun u => u.id == id)

/-- `UserRepository.get_by_email`. -/
def user_repository_get_by_email (db : Database) (email : String) : Option UserRow :=
  db.users.find? (fun u => u.email == email)

/-- `UserRepository.get_by_username`. -/
def user_repository_get_by_username (db : Database) (username : String) : Option UserRow :=
  db.users.find? (fun u => u.username == username)

/-- `BaseRepository.delete` at `User`: fetch by id; if present, delete that
row and return `True`, else return `False`. -/
def user_repository_delete (db : Database) (id : Nat) : Bool × Database :=
  match user_repository_get db id with
  | some _ => (true, { db with users := db.users.eraseP (fun u => u.id == id) })
  | none => (false, db)

/-- `BaseRepository.create` at `User`:
`self.model(**obj_in.model_dump())`.  The dump of a `UserCreate` still
contains the `password` key, which is not a column of the (spec-modelled)
`User` model, so the SQLAlchemy declarative constructor raises `TypeError`
before any row is built.  (No execution path reaches this call: see
`UserService.create_user`.) -/
def user_repository_create (db : Database) (obj_in : UserCreate) :
    Except PyError (UserRow × Database) :=
  .error (.typeError "'password' is an invalid keyword argument for User")

/-- `BaseRepository.get` at `Item`. -/
def item_repository_get (db : Database) (id : Nat) : Option ItemRow :=
  db.items.find? (fun i => i.id == id)

/-- `ItemRepository.get_by_owner`. -/
def item_repository_get_by_owner (db : Database) (owner_id : Nat) : List ItemRow :=
  db.items.filter (fun i => i.owner_id == owner_id)

/-- `BaseRepository.delete` at `Item`. -/
def item_repository_delete (db : Database) (id : Nat) : Bool × Database :=
  match item_repository_get db id with
  | some _ => (true, { db with items := db.items.eraseP (fun i => i.id == id) })
  | none => (false, db)

/-- `db.flush()` after `db.add(Item(...))`: assign the identity and insert,
or raise `IntegrityError` when the NOT NULL `owner_id` column is unset
(spec: `owner_id(→User, required)`). -/
def item_flush (db : Database) (p : ItemRowPending) : Except PyError (ItemRow × Database) :=
  match p.owner_id with
  | none => .error (.integrityError "NOT NULL constraint failed: items.owner_id")
  | some owner_id =>
    let row : ItemRow :=
      { id := db.next_item_id
        title := p.title
        description := p.description
        owner_id := owner_id
        is_active := true }
    .ok (row, { db with items := db.items ++ [row], next_item_id := db.next_item_id + 1 })

/-- `BaseRepository.create` at `Item`: `Item(**obj_in.model_dump())` — the
dump of an `ItemCreate` has only `title` and `description`, so the ORM
instance is constructed with `owner_id` unset — then `add`/`flush`. -/
def item_repository_create (db : Database) (obj_in : ItemCreate) :
    Except PyError (ItemRow × Database) :=
  item_flush db
    { title := obj_in.title
      description := obj_in.description
      owner_id := none }

/-! ## Generic repository update (src/app/repositories/base_repository.py 42-54)

`update_data = obj_in.model_dump(exclude_unset=True)` followed by
`for field, value in update_data.items(): setattr(db_obj, field, value)`.
The dictionary iterates in field-declaration order; each entry is one
`setattr`. -/

/-- One `(field, value)` entry of a `UserUpdate` dump. -/
inductive UserAssignment where
  | email (v : String)
  | username (v : String)
  | full_name (v : Option String)
  | password (v : String)
  | is_active (v : Bool)
deriving DecidableEq, Repr

/-- `update_data.items()` for a `UserUpdate`: the explicitly-set fields in
declaration order. -/
def UserUpdate.dump_items (u : UserUpdate) : List UserAssignment :=
  (match u.email with | .assigned v => [UserAssignment.email v] | .unset => []) ++
  (match u.username with | .assigned v => [UserAssignment.username v] | .unset => []) ++
  (match u.full_name with | .assigned v => [UserAssignment.full_name v] | .unset => []) ++
  (match u.password with | .assigned v => [UserAssignment.password v] | .unset => []) ++
  (match u.is_active with | .assigned v => [UserAssignment.is_active v] | .unset => [])

/-- `setattr(db_obj, field, value)` on a `User` ORM instance.  `password`
is not a column of the model: the assignment creates a plain instance
attribute that the ORM never persists, so the row is unchanged. -/
def UserRow.setattr (row : UserRow) : UserAssignment → UserRow
  | .email v => { row with email := v }
  | .username v => { row with username := v }
  | .full_name v => { row with full_name := v }
  | .password _ => row
  | .is_active v => { row with is_active := v }

/-- The `setattr` loop of `BaseRepository.update` at `User`. -/
def user_apply_update (db_obj : UserRow) (obj_in : UserUpdate) : UserRow :=
  obj_in.dump_items.foldl UserRow.setattr db_obj

/-- `BaseRepository.update` at `User`: run the `setattr` loop, flush, and
return the refreshed row (the row is replaced in place, keyed by its
identity). -/
def user_repository_update (db : Database) (db_obj : UserRow) (obj_in : UserUpdate) :
    UserRow × Database :=
  let updated := user_apply_update db_obj obj_in
  (updated,
    { db with users := db.users.map (fun r => if r.id == db_obj.id then updated else r) })

/-- One `(field, value)` entry of an `ItemUpdate` dump. -/
inductive ItemAssignment where
  | title (v : String)
  | description (v : Option String)
  | is_active (v : Bool)
deriving DecidableEq, Repr

/-- `update_data.items()` for an `ItemUpdate`. -/
def ItemUpdate.dump_items (u : ItemUpdate) : List ItemAssignment :=
  (match u.title with | .assigned v => [ItemAssignment.title v] | .unset => []) ++
  (match u.description with | .assigned v => [ItemAssignment.description v] | .unset => []) ++
  (match u.is_active with | .assigned v => [ItemAssignment.is_active v] | .unset => [])

/-- `setattr(db_obj, field, value)` on an `Item` ORM instance. -/
def ItemRow.setattr (row : ItemRow) : ItemAssignment → ItemRow
  | .title v => { row with title := v }
  | .description v => { row with description := v }
  | .is_active v => { row with is_active := v }

/-- The `setattr` loop of `BaseRepository.update` at `Item`. -/
def item_apply_update (db_obj : ItemRow) (obj_in : ItemUpdate) : ItemRow :=
  obj_in.dump_items.foldl ItemRow.setattr db_obj

/-- `BaseRepository.update` at `Item`. -/
def item_repository_update (db : Database) (db_obj : ItemRow) (obj_in : ItemUpdate) :
    ItemRow × Database :=
  let updated := item_apply_update db_obj obj_in
  (updated,
    { db with items := db.items.map (fun r => if r.id == db_obj.id then updated else r) })

/-! ## Services (src/app/services) -/

/-- `UserService.create_user` (src/app/services/user_service.py 17-38):
check email then username uniqueness; dump the draft, pop `password`,
insert `hashed_password`; rebuild a `UserCreate` from the dictionary and
delegate to the repository.  `salt` is the random salt passlib draws in
`get_password_hash`. -/
def UserService.create_user (db : Database) (user_in : UserCreate) (salt : String) :
    Except PyError (User × Database) :=
  match user_repository_get_by_email db user_in.email with
  | some _ => .error (.valueError "Email already registered")
  | none =>
    match user_repository_get_by_username db user_in.username with
    | some _ => .error (.valueError "Username already taken")
    | none =>
      let user_dict := user_in.model_dump
      let user_dict :=
        { user_dict with
          password := .unset
          hashed_password := .assigned (get_password_hash user_in.password salt) }
      match UserCreate.fromDict user_dict with
      | .error e => .error (.validation e)
      | .ok obj_in =>
        match user_repository_create db obj_in with
        | .error e => .error e
        | .ok (row, db2) => .ok (User.model_validate row, db2)

/-- `UserService.authenticate` (user_service.py 40-52): look up by
username; `None` when absent; `None` when the password does not verify;
an exception from `verify_password` propagates. -/
def UserService.authenticate (db : Database) (username password : String) :
    Except PasslibError (Option User) :=
  match user_repository_get_by_username db username with
  | none => .ok none
  | some user =>
    match verify_password password user.hashed_password with
    | .error e => .error e
    | .ok false => .ok none
    | .ok true => .ok (some (User.model_validate user))

/-- `UserService.get_user` (user_service.py 54-63). -/
def UserService.get_user (db : Database) (user_id : Nat) : Option User :=
  (user_repository_get db user_id).map User.model_validate

/-- `UserService.update_user` (user_service.py 65-83): fetch the row; if the
partial's `password` is set (truthy — the schema's minimum length 8 rules
out the falsy empty string), dump the partial with `exclude_unset`, pop
`password`, insert `hashed_password`, and rebuild a `UserUpdate` from the
dictionary; then delegate the sparse patch to the repository. -/
def UserService.update_user (db : Database) (user_id : Nat) (user_in : UserUpdate)
    (salt : String) : Except PyError (Option User × Database) :=
  match user_repository_get db user_id with
  | none => .ok (none, db)
  | some user =>
    let rebuilt : Except PydanticError UserUpdate :=
      match user_in.password with
      | .assigned password =>
        let user_dict := user_in.model_dump_exclude_unset
        let user_dict :=
          { user_dict with
            password := .unset
            hashed_password := .assigned (get_password_hash password salt) }
        UserUpdate.fromDict user_dict
      | .unset => .ok user_in
    match rebuilt with
    | .error e => .error (.validation e)
    | .ok user_in2 =>
      let (updated, db2) := user_repository_update db user user_in2
      .ok (some (User.model_validate updated), db2)

/-- `UserService.delete_user` (user_service.py 85-91). -/
def UserService.delete_user (db : Database) (user_id : Nat) : Bool × Database :=
  user_repository_delete db user_id

/-- `ItemService.create_item` (src/app/services/item_service.py 16-26):
dump the draft, insert `owner_id` into the dictionary, rebuild an
`ItemCreate` from it and delegate to the repository. -/
def ItemService.create_item (db : Database) (item_in : ItemCreate) (owner_id : Nat) :
    Except PyError (Item × Database) :=
  let item_dict := { item_in.model_dump with owner_id := Patch.assigned owner_id }
  match ItemCreate.fromDict item_dict with
  | .error e => .error (.validation e)
  | .ok obj_in =>
    match item_repository_create db obj_in with
    | .error e => .error e
    | .ok (row, db2) => .ok (Item.model_validate row, db2)

/-- `ItemService.get_item` (item_service.py 28-37). -/
def ItemService.get_item (db : Database) (item_id : Nat) : Option Item :=
  (item_repository_get db item_id).map Item.model_validate

/-- `ItemService.get_user_items` (item_service.py 39-48): full ownership
scan, then the in-memory slice `items[skip : skip + limit]`. -/
def ItemService.get_user_items (db : Database) (owner_id : Nat) (skip limit : Nat) :
    List Item :=
  ((item_repository_get_by_owner db owner_id).drop skip |>.take limit).map Item.model_validate

/-- `ItemService.update_item` (item_service.py 50-62). -/
def ItemService.update_item (db : Database) (item_id : Nat) (item_in : ItemUpdate) :
    Option Item × Database :=
  match item_repository_get db item_id with
  | none => (none, db)
  | some item =>
    let (updated, db2) := item_repository_update db item item_in
    (some (Item.model_validate updated), db2)

/-- `ItemService.delete_item` (item_service.py 64-70). -/
def ItemService.delete_item (db : Database) (item_id : Nat) : Bool × Database :=
  item_repository_delete db item_id

/-! ## Endpoints (src/app/api/v1/endpoints) -/

/-- The outcome of a handler: a response body, or an `HTTPException` with
its status code and detail. -/
inductive ApiResponse (α : Type) where
  | ok (value : α)
  | httpError (status_code : Nat) (detail : String)
deriving DecidableEq, Repr

/-- `POST /auth/register` (src/app/api/v1/endpoints/auth.py 20-36): call
`create_user`; commit on success; on `ValueError` — which includes
pydantic's `ValidationError` — roll back and answer 400 with `str(e)` as
the detail.  Any other exception reaches the generic handler
(src/app/api/errors.py): `IntegrityError` answers 400 with
"Database constraint violation", the rest answer 500. -/
def register_endpoint (db : Database) (user_in : UserCreate) (salt : String) :
    ApiResponse User × Database :=
  match UserService.create_user db user_in salt with
  | .ok (user, db2) => (.ok user, db2)
  | .error e =>
    if e.isValueError then (.httpError 400 e.str, db)
    else
      match e with
      | .integrityError _ => (.httpError 400 "Database constraint violation", db)
      | _ => (.httpError 500 "Internal server error", db)

/-- Schema `Token`: the login response. -/
structure TokenResponse where
  access_token : JWTString
  token_type : String
deriving DecidableEq, Repr

/-- `POST /auth/login` (auth.py 39-61): authenticate; 401 with a single
fixed detail when authentication yields no user (whatever the cause); 403
when the user is inactive; otherwise issue a token for the user's id.
`now` stands for the clock read inside `create_access_token`. -/
def login_endpoint (db : Database) (username password : String) (now : Int) :
    Except PasslibError (ApiResponse TokenResponse) :=
  match UserService.authenticate db username password with
  | .error e => .error e
  | .ok none => .ok (.httpError 401 "Incorrect username or password")
  | .ok (some user) =>
    if user.is_active then
      .ok (.ok { access_token := create_access_token (Int.ofNat user.id) none now
                 token_type := "bearer" })
    else .ok (.httpError 403 "Inactive user")

/-- `POST /items` (src/app/api/v1/endpoints/items.py 15-24): create for the
authenticated user's id and commit; an `IntegrityError` escaping the
handler reaches the app-level handler and answers 400
"Database constraint violation" (after the session rollback, the store is
unchanged). -/
def create_item_endpoint (db : Database) (item_in : ItemCreate) (current_user : User) :
    ApiResponse Item × Database :=
  match ItemService.create_item db item_in current_user.id with
  | .ok (item, db2) => (.ok item, db2)
  | .error (.integrityError _) => (.httpError 400 "Database constraint violation", db)
  | .error _ => (.httpError 500 "Internal server error", db)

/-- `GET /items/{item_id}` (items.py 38-58): 404 when absent, then 403
unless owner or superuser, else the item. -/
def read_item_endpoint (db : Database) (item_id : Nat) (current_user : User) :
    ApiResponse Item :=
  match ItemService.get_item db item_id with
  | none => .httpError 404 "Item not found"
  | some item =>
    if item.owner_id != current_user.id && !current_user.is_superuser then
      .httpError 403 "Not enough privileges"
    else .ok item

/-- `PUT /items/{item_id}` (items.py 61-84): 404 when absent, 403 unless
owner or superuser, else apply the sparse patch and commit.  (The inner
`update_item` cannot return `None` here since the item was just fetched;
that branch would fail response validation with a 500.) -/
def update_item_endpoint (db : Database) (item_id : Nat) (item_update : ItemUpdate)
    (current_user : User) : ApiResponse Item × Database :=
  match ItemService.get_item db item_id with
  | none => (.httpError 404 "Item not found", db)
  | some item =>
    if item.owner_id != current_user.id && !current_user.is_superuser then
      (.httpError 403 "Not enough privileges", db)
    else
      match ItemService.update_item db item_id item_update with
      | (some updated, db2) => (.ok updated, db2)
      | (none, db2) => (.httpError 500 "Internal server error", db2)

/-- `DELETE /items/{item_id}` (items.py 87-110): 404 when absent, 403
unless owner or superuser, else delete and commit. -/
def delete_item_endpoint (db : Database) (item_id : Nat) (current_user : User) :
    ApiResponse MessageResponse × Database :=
  match ItemService.get_item db item_id with
  | none => (.httpError 404 "Item not found", db)
  | some item =>
    if item.owner_id != current_user.id && !current_user.is_superuser then
      (.httpError 403 "Not enough privileges", db)
    else
      let (_, db2) := ItemService.delete_item db item_id
      (.ok { message := "Item deleted successfully" }, db2)

/-- `DELETE /users/{user_id}` (src/app/api/v1/endpoints/users.py 68-89),
reached only through the superuser guard: the self-delete check runs first,
then the repository-driven delete decides between 404 and success. -/
def delete_user_endpoint (db : Database) (user_id : Nat) (current_user : User) :
    ApiResponse MessageResponse × Database :=
  if user_id == current_user.id then
    (.httpError 400 "Cannot delete yourself", db)
  else
    let (deleted, db2) := UserService.delete_user db user_id
    if deleted then (.ok { message := "User deleted successfully" }, db2)
    else (.httpError 404 "User not found", db2)

/-! ## Rate limiting middleware (src/app/middleware/__init__.py 63-114) -/

/-- `RateLimitMiddleware` state: the per-client timestamp lists.  A client
address that was never seen maps to `[]`, matching the
`if client_ip not in self.requests` initialisation.  `time.time()` floats
are modelled as rationals. -/
structure RateLimiter where
  max_requests : Nat
  window_seconds : ℚ
  requests : String → List ℚ

/-- `RateLimitMiddleware.dispatch` (middleware/__init__.py 80-114), up to
the rate-limit decision: prune the client's history to the window, store
the pruned list, and either reject with 429 — leaving the pruned list as
is — or append the current time and forward the request.  Returns `true`
iff the request was forwarded. -/
def RateLimiter.dispatch (rl : RateLimiter) (client_ip : String) (now : ℚ) :
    Bool × RateLimiter :=
  let pruned := (rl.requests client_ip).filter (fun t => now - t < rl.window_seconds)
  if rl.max_requests ≤ pruned.length then
    (false, { rl with requests := Function.update rl.requests client_ip pruned })
  else
    (true, { rl with requests := Function.update rl.requests client_ip (pruned ++ [now]) })

/-! ## Fixtures used by concrete evaluations -/

/-- A fresh store. -/
def emptyDb : Database :=
  { users := [], items := [], next_user_id := 1, next_item_id := 1 }

/-- The registration draft of the spec scenario
`register("a@x.com","alice","pw12345678")`. -/
def registerDraft : UserCreate :=
  { email := "a@x.com", username := "alice", full_name := none,
    password := "pw12345678" }

/-- A stored user `alice`. -/
def aliceRow : UserRow :=
  { id := 1, email := "a@x.com", username := "alice", full_name := none,
    hashed_password := get_password_hash "pw12345678" "saltA",
    is_active := true, is_superuser := false }

/-- A second stored user `bobby`. -/
def bobRow : UserRow :=
  { id := 2, email := "b@x.com", username := "bobby", full_name := none,
    hashed_password := get_password_hash "bobpass123" "saltB",
    is_active := true, is_superuser := false }

/-- A store holding `alice` and `bobby`. -/
def twoUserDb : Database :=
  { users := [aliceRow, bobRow], items := [], next_user_id := 3, next_item_id := 1 }

/-! ## Claims -/

/-- C5 counterexample: the claim says `verify_password` never throws and
returns `false` on a malformed digest; on the concrete malformed digest
`"notahash"` it instead propagates passlib's `UnknownHashError` and in
particular does not return `false`. -/
theorem verify_password_malformed_counterexample :
    verify_password "pw12345678" (Digest.malformed "notahash") =
      Except.error PasslibError.unknownHash ∧
    verify_password "pw12345678" (Digest.malformed "notahash") ≠
      Except.ok false := by
  refine ⟨rfl, ?_⟩
  intro h
  exact Except.noConfusion h

/-- C5 (amended): for every plaintext, `verify_password` returns a boolean
on every well-formed digest, but on every malformed digest it raises
passlib's `UnknownHashError` (uncaught, since `verify_password` adds no
handler) rather than returning `false`. -/
theorem verify_password_total_on_wellformed_raises_on_malformed :
    (∀ (plain raw : String),
      verify_password plain (Digest.malformed raw) =
        Except.error PasslibError.unknownHash) ∧
    (∀ (plain salt payload : String),
      ∃ b : Bool, verify_password plain (Digest.bcrypt salt payload) = Except.ok b) := by
  constructor
  · intro plain raw; rfl
  · intro plain salt payload
    exact ⟨payload == bcryptKDF plain salt, rfl⟩

/-- C4 counterexample: a registration rejected for a duplicate email and
one rejected for a duplicate username answer with different 400 details
("Email already registered" vs "Username already taken"), so a rejected
registration does disclose which field was the duplicate, contradicting
the claim's registration half. -/
theorem register_reveals_duplicate_field :
    (register_endpoint twoUserDb
        { email := "a@x.com", username := "charlie", full_name := none,
          password := "pw12345678" } "saltC").1 =
      ApiResponse.httpError 400 "Email already registered" ∧
    (register_endpoint twoUserDb
        { email := "c@x.com", username := "alice", full_name := none,
          password := "pw12345678" } "saltC").1 =
      ApiResponse.httpError 400 "Username already taken" ∧
    ("Email already registered" : String) ≠ "Username already taken" := by
  refine ⟨rfl, rfl, by decide⟩

/-- C4 (amended): `authenticate` returns the same absent value (`ok none`)
whether the username does not exist or the password fails verification, so
login does not reveal which of the two was wrong; the registration half of
the original claim is false (see the counterexample): rejected
registrations disclose the duplicated field in the error detail. -/
theorem authenticate_failure_indistinguishable
    (db : Database) (username password : String) :
    (user_repository_get_by_username db username = none →
      UserService.authenticate db username password = Except.ok none) ∧
    (∀ user : UserRow, user_repository_get_by_username db username = some user →
      verify_password password user.hashed_password = Except.ok false →
      UserService.authenticate db username password = Except.ok none) := by
  constructor
  · intro h
    simp [UserService.authenticate, h]
  · intro user h hverify
    simp [UserService.authenticate, h, hverify]

/-- Witness for C4: both failure modes on the concrete store — unknown
username `archibald`, and `alice` with the wrong password — evaluate to the
same `ok none`. -/
theorem authenticate_failure_indistinguishable_witness :
    UserService.authenticate twoUserDb "archibald" "pw12345678" = Except.ok none ∧
    UserService.authenticate twoUserDb "alice" "wrongpass99" = Except.ok none := by
  constructor
  · exact (authenticate_failure_indistinguishable twoUserDb "archibald" "pw12345678").1 rfl
  · exact (authenticate_failure_indistinguishable twoUserDb "alice" "wrongpass99").2
      aliceRow rfl rfl

/-- Helper: no `UserUpdate` assignment list can change `hashed_password` —
the dump of a `UserUpdate` has no such key. -/
theorem foldl_setattr_hashed_password (l : List UserAssignment) :
    ∀ row : UserRow, (l.foldl UserRow.setattr row).hashed_password = row.hashed_password := by
  induction l with
  | nil => intro row; rfl
  | cons a l ih =>
    intro row
    cases a <;> simpa [UserRow.setattr] using ih _

/-- Helper: nor can it change the identity column. -/
theorem foldl_setattr_id (l : List UserAssignment) :
    ∀ row : UserRow, (l.foldl UserRow.setattr row).id = row.id := by
  induction l with
  | nil => intro row; rfl
  | cons a l ih =>
    intro row
    cases a <;> simpa [UserRow.setattr] using ih _

/-- Helper: `ItemUpdate` assignment lists change neither `id` nor
`owner_id` — the dump of an `ItemUpdate` has no such keys. -/
theorem foldl_setattr_item_frame (l : List ItemAssignment) :
    ∀ row : ItemRow, (l.foldl ItemRow.setattr row).id = row.id ∧
      (l.foldl ItemRow.setattr row).owner_id = row.owner_id := by
  induction l with
  | nil => intro row; exact ⟨rfl, rfl⟩
  | cons a l ih =>
    intro row
    cases a <;> simpa [ItemRow.setattr] using ih _

/-- C1: the claim says registration succeeds for a draft with unused email
and username; in fact `UserService.create_user` can never return a user.
After the uniqueness checks it pops `password` from the dump and adds the
undeclared key `hashed_password`, so `UserCreate(**user_dict)` raises
`ValidationError` (required field `password` missing; `hashed_password` is
silently ignored).  The spec scenario
`register("a@x.com","alice","pw12345678")` on an empty store therefore
answers 400, not 201 — contradicting the repository's own
`test_register`. -/
theorem create_user_never_succeeds :
    (∀ (db : Database) (user_in : UserCreate) (salt : String),
       ∃ e : PyError, UserService.create_user db user_in salt = Except.error e) ∧
    UserService.create_user emptyDb registerDraft "salt1" =
      Except.error (PyError.validation (PydanticError.missingField "password")) ∧
    (register_endpoint emptyDb registerDraft "salt1").1 =
      ApiResponse.httpError 400 "1 validation error: password: Field required" := by
  refine ⟨?_, rfl, rfl⟩
  intro db user_in salt
  simp only [UserService.create_user]
  split
  · exact ⟨_, rfl⟩
  · split
    · exact ⟨_, rfl⟩
    · split
      · exact ⟨_, rfl⟩
      · exact ⟨_, rfl⟩

/-- C2: the claim says `ItemService.create_item` persists the item with the
caller-supplied `owner_id`; in fact it can never return an item.  The
service inserts `owner_id` into the dump, but `ItemCreate(**item_dict)`
silently drops that undeclared key, so the ORM row is built without an
owner and the flush fails the NOT NULL constraint; the endpoint answers
400 "Database constraint violation", not 201 — contradicting the
repository's own `test_create_item`. -/
theorem create_item_never_succeeds :
    (∀ (db : Database) (item_in : ItemCreate) (owner_id : Nat),
       ∃ e : PyError, ItemService.create_item db item_in owner_id = Except.error e) ∧
    ItemService.create_item emptyDb { title := "T", description := none } 1 =
      Except.error (PyError.integrityError "NOT NULL constraint failed: items.owner_id") ∧
    (create_item_endpoint emptyDb { title := "T", description := none }
        (User.model_validate aliceRow)).1 =
      ApiResponse.httpError 400 "Database constraint violation" := by
  refine ⟨?_, rfl, rfl⟩
  intro db item_in owner_id
  simp only [ItemService.create_item]
  split
  · exact ⟨_, rfl⟩
  · exact ⟨_, rfl⟩

/-- The partial update "change alice's password to newpass123". -/
def alicePasswordPatch : UserUpdate :=
  { email := .unset, username := .unset, full_name := .unset,
    password := .assigned "newpass123", is_active := .unset }

/-- C3: the claim says a partial update that includes a password stores the
hash of the new password; in fact the hash is computed and then lost:
`UserUpdate(**user_dict)` silently drops the undeclared `hashed_password`
key, so nothing about the password reaches the sparse patch.  Universally,
no `UserUpdate` patch can change `hashed_password`; concretely, updating
alice's password leaves the store unchanged, the new password does not
verify afterwards and the old one still does.  (Fields other than password
do pass through unchanged — that half of the claim holds, see the C6
theorem.) -/
theorem update_user_password_change_is_lost :
    (∀ (row : UserRow) (u : UserUpdate),
       (user_apply_update row u).hashed_password = row.hashed_password) ∧
    UserService.update_user twoUserDb 1 alicePasswordPatch "saltB" =
      Except.ok (some (User.model_validate aliceRow), twoUserDb) ∧
    verify_password "newpass123" aliceRow.hashed_password = Except.ok false ∧
    verify_password "pw12345678" aliceRow.hashed_password = Except.ok true := by
  refine ⟨?_, rfl, rfl, rfl⟩
  intro row u
  exact foldl_setattr_hashed_password u.dump_items row

/-- C6: `BaseRepository.update` is a sparse patch.  For both entity types:
every field explicitly set in the partial projection — including a field
explicitly set to null, e.g. `description := assigned none` — is applied,
every field not explicitly set keeps its previous value, and columns that
no update schema can name (`id`, `owner_id`, `hashed_password`) are always
untouched. -/
theorem base_repository_update_is_sparse_patch :
    (∀ (row : ItemRow) (u : ItemUpdate),
      (∀ v, u.title = Patch.assigned v → (item_apply_update row u).title = v) ∧
      (u.title = Patch.unset → (item_apply_update row u).title = row.title) ∧
      (∀ v, u.description = Patch.assigned v → (item_apply_update row u).description = v) ∧
      (u.description = Patch.unset →
        (item_apply_update row u).description = row.description) ∧
      (∀ v, u.is_active = Patch.assigned v → (item_apply_update row u).is_active = v) ∧
      (u.is_active = Patch.unset → (item_apply_update row u).is_active = row.is_active) ∧
      (item_apply_update row u).id = row.id ∧
      (item_apply_update row u).owner_id = row.owner_id) ∧
    (∀ (row : UserRow) (u : UserUpdate),
      (∀ v, u.email = Patch.assigned v → (user_apply_update row u).email = v) ∧
      (u.email = Patch.unset → (user_apply_update row u).email = row.email) ∧
      (∀ v, u.username = Patch.assigned v → (user_apply_update row u).username = v) ∧
      (u.username = Patch.unset → (user_apply_update row u).username = row.username) ∧
      (∀ v, u.full_name = Patch.assigned v → (user_apply_update row u).full_name = v) ∧
      (u.full_name = Patch.unset → (user_apply_update row u).full_name = row.full_name) ∧
      (∀ v, u.is_active = Patch.assigned v → (user_apply_update row u).is_active = v) ∧
      (u.is_active = Patch.unset → (user_apply_update row u).is_active = row.is_active) ∧
      (user_apply_update row u).id = row.id ∧
      (user_apply_update row u).hashed_password = row.hashed_password) := by
  constructor
  · intro row u
    obtain ⟨t, d, a⟩ := u
    cases t <;> cases d <;> cases a <;>
      simp [item_apply_update, ItemUpdate.dump_items, ItemRow.setattr]
  · intro row u
    obtain ⟨e, un, fn, pw, ia⟩ := u
    cases e <;> cases un <;> cases fn <;> cases pw <;> cases ia <;>
      simp [user_apply_update, UserUpdate.dump_items, UserRow.setattr]

/-- A stored item of alice's. -/
def aliceItemRow : ItemRow :=
  { id := 1, title := "Old title", description := some "old", owner_id := 1,
    is_active := true }

/-- Witness for C6 at concrete inputs: a patch setting `title`, explicitly
nulling `description` and leaving `is_active` unset is applied exactly so,
and a user patch setting only `full_name` leaves `email` alone. -/
theorem base_repository_update_is_sparse_patch_witness :
    (item_apply_update aliceItemRow
        { title := .assigned "New title", description := .assigned none,
          is_active := .unset }).title = "New title" ∧
    (item_apply_update aliceItemRow
        { title := .assigned "New title", description := .assigned none,
          is_active := .unset }).description = none ∧
    (item_apply_update aliceItemRow
        { title := .assigned "New title", description := .assigned none,
          is_active := .unset }).is_active = aliceItemRow.is_active ∧
    (user_apply_update aliceRow
        { email := .unset, username := .unset, full_name := .assigned (some "Alice A."),
          password := .unset, is_active := .unset }).full_name = some "Alice A." ∧
    (user_apply_update aliceRow
        { email := .unset, username := .unset, full_name := .assigned (some "Alice A."),
          password := .unset, is_active := .unset }).email = aliceRow.email := by
  refine ⟨?_, ?_, ?_, ?_, ?_⟩
  · exact (base_repository_update_is_sparse_patch.1 aliceItemRow _).1 "New title" rfl
  · exact (base_repository_update_is_sparse_patch.1 aliceItemRow _).2.2.1 none rfl
  · exact (base_repository_update_is_sparse_patch.1 aliceItemRow _).2.2.2.2.2.1 rfl
  · exact (base_repository_update_is_sparse_patch.2 aliceRow _).2.2.2.2.1 (some "Alice A.") rfl
  · exact (base_repository_update_is_sparse_patch.2 aliceRow _).2.1 rfl

/-- C7: a token issued for `subject` with ttl `T` seconds at time `t0`
decodes to exactly that subject at every time before the ttl has elapsed,
and decodes to the distinguished invalid result `none` after the ttl has
elapsed, on every unparseable token, and on every token whose signature was
not made with the process-wide key. -/
theorem access_token_validates_iff_fresh
    (subject : Int) (T t0 t : Int) (hT : 0 < T) :
    (t < t0 + T →
       decode_access_token (create_access_token subject (some T) t0) t = some subject) ∧
    (t0 + T < t →
       decode_access_token (create_access_token subject (some T) t0) t = none) ∧
    (∀ raw : String, decode_access_token (JWTString.garbage raw) t = none) ∧
    (∀ (claims : JWTClaims) (key : String), key ≠ settings.SECRET_KEY →
       decode_access_token (JWTString.signed claims key) t = none) := by
  have hTne : T ≠ 0 := by omega
  refine ⟨?_, ?_, ?_, ?_⟩
  · intro hlt
    simp only [create_access_token, jwt_encode, decode_access_token, jwt_decode,
      if_neg hTne, if_pos rfl, if_neg (by omega : ¬ t0 + T < t)]
    exact python_int_toString subject
  · intro hgt
    simp only [create_access_token, jwt_encode, decode_access_token, jwt_decode,
      if_neg hTne, if_pos rfl, if_pos hgt]
    simp
  · intro raw
    rfl
  · intro claims key hkey
    simp only [decode_access_token, jwt_decode, if_neg hkey]

/-- Witness for C7: a token for subject 7 with ttl 3600 issued at time 1000
decodes to 7 at time 1500 and to `none` at time 9999. -/
theorem access_token_validates_iff_fresh_witness :
    decode_access_token (create_access_token 7 (some 3600) 1000) 1500 = some 7 ∧
    decode_access_token (create_access_token 7 (some 3600) 1000) 9999 = none := by
  constructor
  · exact (access_token_validates_iff_fresh 7 3600 1000 1500 (by decide)).1 (by decide)
  · exact (access_token_validates_iff_fresh 7 3600 1000 9999 (by decide)).2.1 (by decide)

/-- C8: for every store, item id and authenticated active user, the three
`/items/{id}` handlers answer 404 when no such item exists (regardless of
the caller, i.e. before any ownership check), succeed when the caller owns
the item or is a superuser, and answer 403 for every other caller. -/
theorem items_endpoints_owner_or_superuser
    (db : Database) (item_id : Nat) (current_user : User) (item_update : ItemUpdate)
    (hactive : current_user.is_active = true) :
    (item_repository_get db item_id = none →
       read_item_endpoint db item_id current_user =
         ApiResponse.httpError 404 "Item not found" ∧
       (update_item_endpoint db item_id item_update current_user).1 =
         ApiResponse.httpError 404 "Item not found" ∧
       (delete_item_endpoint db item_id current_user).1 =
         ApiResponse.httpError 404 "Item not found") ∧
    (∀ row : ItemRow, item_repository_get db item_id = some row →
       row.owner_id = current_user.id ∨ current_user.is_superuser = true →
       read_item_endpoint db item_id current_user =
         ApiResponse.ok (Item.model_validate row) ∧
       (update_item_endpoint db item_id item_update current_user).1 =
         ApiResponse.ok (Item.model_validate (item_apply_update row item_update)) ∧
       (delete_item_endpoint db item_id current_user).1 =
         ApiResponse.ok { message := "Item deleted successfully" }) ∧
    (∀ row : ItemRow, item_repository_get db item_id = some row →
       row.owner_id ≠ current_user.id → current_user.is_superuser = false →
       read_item_endpoint db item_id current_user =
         ApiResponse.httpError 403 "Not enough privileges" ∧
       (update_item_endpoint db item_id item_update current_user).1 =
         ApiResponse.httpError 403 "Not enough privileges" ∧
       (delete_item_endpoint db item_id current_user).1 =
         ApiResponse.httpError 403 "Not enough privileges") := by
  refine ⟨?_, ?_, ?_⟩
  · intro h
    refine ⟨?_, ?_, ?_⟩ <;>
      simp [read_item_endpoint, update_item_endpoint, delete_item_endpoint,
        ItemService.get_item, h]
  · intro row hrow hperm
    have hcond : ((Item.model_validate row).owner_id != current_user.id &&
        !current_user.is_superuser) = false := by
      rcases hperm with howner | hsup
      · simp [Item.model_validate, howner]
      · simp [hsup]
    refine ⟨?_, ?_, ?_⟩
    · simp [read_item_endpoint, ItemService.get_item, hrow, hcond]
    · simp [update_item_endpoint, ItemService.get_item, hrow, hcond,
        ItemService.update_item, item_repository_update]
    · simp [delete_item_endpoint, ItemService.get_item, hrow, hcond,
        ItemService.delete_item, item_repository_delete]
  · intro row hrow hne hns
    have hcond : ((Item.model_validate row).owner_id != current_user.id &&
        !current_user.is_superuser) = true := by
      simp [Item.model_validate, hns, bne_iff_ne, hne]
    refine ⟨?_, ?_, ?_⟩ <;>
      simp [read_item_endpoint, update_item_endpoint, delete_item_endpoint,
        ItemService.get_item, hrow, hcond]

/-- A superuser caller. -/
def adminUser : User :=
  { email := "admin@x.com", username := "admin", full_name := none,
    id := 9, is_active := true, is_superuser := true }

/-- A store holding alice, bobby and alice's item. -/
def itemsDb : Database :=
  { users := [aliceRow, bobRow], items := [aliceItemRow],
    next_user_id := 3, next_item_id := 2 }

/-- Witness for C8 on a concrete store: the owner and a superuser read
alice's item, a different plain user gets 403, and a missing id gets 404. -/
theorem items_endpoints_owner_or_superuser_witness :
    read_item_endpoint itemsDb 1 (User.model_validate aliceRow) =
      ApiResponse.ok (Item.model_validate aliceItemRow) ∧
    read_item_endpoint itemsDb 1 adminUser =
      ApiResponse.ok (Item.model_validate aliceItemRow) ∧
    read_item_endpoint itemsDb 1 (User.model_validate bobRow) =
      ApiResponse.httpError 403 "Not enough privileges" ∧
    read_item_endpoint itemsDb 5 (User.model_validate bobRow) =
      ApiResponse.httpError 404 "Item not found" := by
  refine ⟨?_, ?_, ?_, ?_⟩
  · exact ((items_endpoints_owner_or_superuser itemsDb 1 (User.model_validate aliceRow)
      { title := .unset, description := .unset, is_active := .unset } rfl).2.1
      aliceItemRow rfl (Or.inl rfl)).1
  · exact ((items_endpoints_owner_or_superuser itemsDb 1 adminUser
      { title := .unset, description := .unset, is_active := .unset } rfl).2.1
      aliceItemRow rfl (Or.inr rfl)).1
  · exact ((items_endpoints_owner_or_superuser itemsDb 1 (User.model_validate bobRow)
      { title := .unset, description := .unset, is_active := .unset } rfl).2.2
      aliceItemRow rfl (by decide) rfl).1
  · exact ((items_endpoints_owner_or_superuser itemsDb 5 (User.model_validate bobRow)
      { title := .unset, description := .unset, is_active := .unset } rfl).1 rfl).1

/-- C9: for every superuser caller of `DELETE /users/{id}`: deleting one's
own id answers 400 "Cannot delete yourself" — this check runs before any
existence check, so it needs no assumption about the store; otherwise the
outcome is decided by `BaseRepository.delete`, whose boolean is true iff a
row with that id existed (and was removed): a missing id answers 404 and an
existing one succeeds. -/
theorem delete_user_endpoint_ordering
    (db : Database) (user_id : Nat) (current_user : User)
    (hsup : current_user.is_superuser = true) :
    (user_id = current_user.id →
       delete_user_endpoint db user_id current_user =
         (ApiResponse.httpError 400 "Cannot delete yourself", db)) ∧
    (user_id ≠ current_user.id → user_repository_get db user_id = none →
       delete_user_endpoint db user_id current_user =
         (ApiResponse.httpError 404 "User not found", db)) ∧
    (user_id ≠ current_user.id → ∀ row : UserRow,
       user_repository_get db user_id = some row →
       delete_user_endpoint db user_id current_user =
         (ApiResponse.ok { message := "User deleted successfully" },
          { db with users := db.users.eraseP (fun u => u.id == user_id) })) ∧
    ((user_repository_delete db user_id).1 = true ↔
       ∃ row ∈ db.users, row.id = user_id) := by
  refine ⟨?_, ?_, ?_, ?_⟩
  · intro h
    simp [delete_user_endpoint, h]
  · intro hne hnone
    simp [delete_user_endpoint, hne, UserService.delete_user,
      user_repository_delete, hnone]
  · intro hne row hsome
    simp [delete_user_endpoint, hne, UserService.delete_user,
      user_repository_delete, hsome]
  · constructor
    · intro h
      rcases hf : user_repository_get db user_id with _ | row
      · simp [user_repository_delete, hf] at h
      · have hmem := List.mem_of_find?_eq_some hf
        have hp := List.find?_some hf
        exact ⟨row, hmem, by simpa using hp⟩
    · intro ⟨row, hmem, hid⟩
      have : (user_repository_get db user_id).isSome := by
        apply List.find?_isSome.mpr
        exact ⟨row, hmem, by simpa using hid⟩
      rcases hf : user_repository_get db user_id with _ | r
      · rw [hf] at this; simp at this
      · simp [user_repository_delete, hf]

/-- Witness for C9 on the concrete two-user store, called by a superuser
with id 9: deleting id 9 answers 400 even though no check of the store was
made, deleting the missing id 5 answers 404, and deleting bobby (id 2)
succeeds; the repository boolean agrees with row existence. -/
theorem delete_user_endpoint_ordering_witness :
    delete_user_endpoint twoUserDb 9 adminUser =
      (ApiResponse.httpError 400 "Cannot delete yourself", twoUserDb) ∧
    delete_user_endpoint twoUserDb 5 adminUser =
      (ApiResponse.httpError 404 "User not found", twoUserDb) ∧
    delete_user_endpoint twoUserDb 2 adminUser =
      (ApiResponse.ok { message := "User deleted successfully" },
       { twoUserDb with users := twoUserDb.users.eraseP (fun u => u.id == 2) }) := by
  refine ⟨?_, ?_, ?_⟩
  · exact (delete_user_endpoint_ordering twoUserDb 9 adminUser rfl).1 rfl
  · exact (delete_user_endpoint_ordering twoUserDb 5 adminUser rfl).2.1 (by decide) rfl
  · exact (delete_user_endpoint_ordering twoUserDb 2 adminUser rfl).2.2.1 (by decide)
      bobRow rfl

/-- C10: one dispatch step of the sliding-window rate limiter.  A rejected
request leaves the client's stored list a sublist of what was already
stored (the current time is never appended, so rejections never extend the
throttle); every client's stored list stays within `max_requests`; every
timestamp retained for the dispatching client lies within `window_seconds`
of the current time; and no other client's list is touched. -/
theorem rate_limiter_dispatch_invariants
    (rl : RateLimiter) (client_ip : String) (now : ℚ)
    (hwin : 0 < rl.window_seconds)
    (hinv : ∀ c, (rl.requests c).length ≤ rl.max_requests) :
    ((rl.dispatch client_ip now).1 = false →
       ((rl.dispatch client_ip now).2.requests client_ip).Sublist
         (rl.requests client_ip)) ∧
    (∀ c, ((rl.dispatch client_ip now).2.requests c).length ≤ rl.max_requests) ∧
    (∀ t ∈ (rl.dispatch client_ip now).2.requests client_ip,
       now - t < rl.window_seconds) ∧
    (∀ c, c ≠ client_ip → (rl.dispatch client_ip now).2.requests c = rl.requests c) := by
  by_cases hfull : rl.max_requests ≤
      ((rl.requests client_ip).filter (fun t => now - t < rl.window_seconds)).length
  · refine ⟨?_, ?_, ?_, ?_⟩
    · intro _
      simp only [RateLimiter.dispatch, if_pos hfull, Function.update_same]
      exact List.filter_sublist _
    · intro c
      by_cases hc : c = client_ip
      · subst hc
        simp only [RateLimiter.dispatch, if_pos hfull, Function.update_same]
        exact le_trans (List.length_filter_le _ _) (hinv c)
      · simp only [RateLimiter.dispatch, if_pos hfull, Function.update_noteq hc]
        exact hinv c
    · intro t ht
      simp only [RateLimiter.dispatch, if_pos hfull, Function.update_same] at ht
      exact of_decide_eq_true (List.mem_filter.mp ht).2
    · intro c hc
      simp only [RateLimiter.dispatch, if_pos hfull, Function.update_noteq hc]
  · refine ⟨?_, ?_, ?_, ?_⟩
    · intro hrej
      simp only [RateLimiter.dispatch, if_neg hfull] at hrej
      exact absurd hrej (by simp)
    · intro c
      by_cases hc : c = client_ip
      · subst hc
        simp only [RateLimiter.dispatch, if_neg hfull, Function.update_same,
          List.length_append, List.length_singleton]
        have := lt_of_not_le hfull
        omega
      · simp only [RateLimiter.dispatch, if_neg hfull, Function.update_noteq hc]
        exact hinv c
    · intro t ht
      simp only [RateLimiter.dispatch, if_neg hfull, Function.update_same] at ht
      rcases List.mem_append.mp ht with hmem | hnow
      · exact of_decide_eq_true (List.mem_filter.mp hmem).2
      · rw [List.mem_singleton.mp hnow]
        simpa using hwin
    · intro c hc
      simp only [RateLimiter.dispatch, if_neg hfull, Function.update_noteq hc]

/-- A rate limiter with one slot per minute and a full history for client
"10.0.0.1": one request at time 2 within the window. -/
def smallLimiter : RateLimiter :=
  { max_requests := 1
    window_seconds := 60
    requests := fun c => if c = "10.0.0.1" then [2] else [] }

/-- Witness for C10: dispatching "10.0.0.1" at time 30 is rejected (the
window still holds one timestamp and the limit is one), and the stored list
afterwards is still a sublist of the previous one. -/
theorem rate_limiter_dispatch_invariants_witness :
    (smallLimiter.dispatch "10.0.0.1" 30).1 = false ∧
    ((smallLimiter.dispatch "10.0.0.1" 30).2.requests "10.0.0.1").Sublist
      (smallLimiter.requests "10.0.0.1") ∧
    ((smallLimiter.dispatch "10.0.0.1" 30).2.requests "10.0.0.1").length ≤
      smallLimiter.max_requests := by
  have hrej : (smallLimiter.dispatch "10.0.0.1" 30).1 = false := by
    simp [smallLimiter, RateLimiter.dispatch]
    norm_num
  refine ⟨hrej, ?_, ?_⟩
  · exact (rate_limiter_dispatch_invariants smallLimiter "10.0.0.1" 30
      (by norm_num [smallLimiter])
      (fun c => by by_cases hc : c = "10.0.0.1" <;> simp [smallLimiter, hc])).1 hrej
  · exact (rate_limiter_dispatch_invariants smallLimiter "10.0.0.1" 30
      (by norm_num [smallLimiter])
      (fun c => by by_cases hc : c = "10.0.0.1" <;> simp [smallLimiter, hc])).2.1
      "10.0.0.1"
